import Mathlib

/-!
Verification development for the SentinelPharma repository.

Part A embeds the Evidence Validation and Truthfulness Gate pipeline
(Trust and Freshness Scorer, Conflict Detector, Verification Aggregator,
Abstention Policy Engine, Truth Gate).  The Python AI engine that
implements this pipeline (ai_engine/app/services/evidence_validator.py,
ai_engine/app/agents/orchestrator.py per the Phase 1 plan) is not part of
the available sources, so these definitions are modelled from the
specification text.

Part B embeds JavaScript server code that is present in the sources:
the Zod response schemas, the rate limiter middleware, and the archival
controller (saveReport, shareReport, unshareReport).
-/

namespace SentinelPharma

/-- Modelled from the spec: source trust tiers of the Trust and Freshness
Scorer (section 4.2); the scorer itself lives in the missing AI engine
module ai_engine/app/services/evidence_validator.py. -/
inductive SourceTier
  | official
  | peerReviewed
  | news
  | other
  deriving DecidableEq, Repr

/-- Modelled from the spec: descending source-tier priority
official > peer-reviewed > news/trade press > other, encoded as a rank. -/
def SourceTier.rank : SourceTier → Nat
  | .official => 3
  | .peerReviewed => 2
  | .news => 1
  | .other => 0

/-- Modelled from the spec: the derived verification status of a Claim
(section 3), owned by the missing Verification Aggregator. -/
inductive VerificationStatus
  | verified
  | partiallyVerified
  | unverified
  | conflicting
  deriving DecidableEq, Repr

/-- Modelled from the spec: the canonical EvidenceRecord (section 3),
flattened to the fields the pipeline rules consume.  claim_text is the
normalized claim text compared by the Conflict Detector, sourceName and
contentHash are the source and retrieval hash used for independence,
slaHours is the freshness SLA of the record category.  The record type
itself belongs to the missing ai_engine evidence schema module. -/
structure EvidenceRecord where
  claim_id : String
  claim_text : String
  sourceName : String
  contentHash : String
  source_tier : SourceTier
  confidence : ℚ
  freshness_hours : Nat
  slaHours : Nat
  deriving DecidableEq, Repr

/-- Modelled from the spec: base confidence per source tier, a monotone
choice for the decay law left open by section 9 of the spec; the concrete
scorer is in the missing AI engine. -/
def baseConfidence : SourceTier → ℚ
  | .official => 9/10
  | .peerReviewed => 3/4
  | .news => 1/2
  | .other => 3/10

/-- Modelled from the spec: freshness decay factor, 1 while the age is
within the SLA and decaying monotonically once past it. -/
def freshFactor (ageHours slaHours : Nat) : ℚ :=
  if ageHours ≤ slaHours then 1
  else ((slaHours : ℚ) + 1) / ((ageHours : ℚ) + 1)

/-- Modelled from the spec: the confidence assigned by the Trust and
Freshness Scorer (section 4.2), non-increasing in age past the SLA and
non-decreasing in source-tier rank. -/
def confidenceScore (tier : SourceTier) (ageHours slaHours : Nat) : ℚ :=
  baseConfidence tier * freshFactor ageHours slaHours

theorem baseConfidence_nonneg (t : SourceTier) : 0 ≤ baseConfidence t := by
  cases t <;> norm_num [baseConfidence]

theorem baseConfidence_mono {t1 t2 : SourceTier} (h : t1.rank ≤ t2.rank) :
    baseConfidence t1 ≤ baseConfidence t2 := by
  cases t1 <;> cases t2 <;> simp_all [SourceTier.rank] <;> norm_num [baseConfidence]

theorem freshFactor_nonneg (a s : Nat) : 0 ≤ freshFactor a s := by
  unfold freshFactor
  split
  · norm_num
  · positivity

theorem freshFactor_antitone {s a1 a2 : Nat} (h1 : s < a1) (h12 : a1 ≤ a2) :
    freshFactor a2 s ≤ freshFactor a1 s := by
  unfold freshFactor
  rw [if_neg (by omega), if_neg (by omega)]
  have hpos1 : (0 : ℚ) < (a1 : ℚ) + 1 := by positivity
  have hnum : (0 : ℚ) ≤ (s : ℚ) + 1 := by positivity
  have hcast : ((a1 : ℚ) + 1) ≤ ((a2 : ℚ) + 1) := by
    have : (a1 : ℚ) ≤ (a2 : ℚ) := by exact_mod_cast h12
    linarith
  exact div_le_div_of_nonneg_left hnum hpos1 hcast |>.trans_eq rfl

/-- Modelled from the spec: the evidence records grouped under one claim id
(section 4.3, Conflict Detector), from the missing AI engine validator. -/
def groupOf (l : List EvidenceRecord) (c : String) : List EvidenceRecord :=
  l.filter (fun r => r.claim_id == c)

/-- Modelled from the spec: the Conflict Detector flags a group when two of
its records disagree on the normalized claim text (section 4.3). -/
def hasConflictB (g : List EvidenceRecord) : Bool :=
  g.any (fun r => g.any (fun s => r.claim_text != s.claim_text))

/-- Modelled from the spec: highest source-tier rank among the records of a
group that state the value v, used by the tie-break of section 4.3. -/
def maxTierRank (g : List EvidenceRecord) (v : String) : Nat :=
  ((g.filter (fun r => r.claim_text == v)).map (fun r => r.source_tier.rank)).foldr Nat.max 0

/-- Modelled from the spec: aggregate confidence of the records of a group
that state the value v, used by the tie-break of section 4.3. -/
def aggConfidence (g : List EvidenceRecord) (v : String) : ℚ :=
  ((g.filter (fun r => r.claim_text == v)).map (fun r => r.confidence)).sum

/-- Modelled from the spec: value v beats value w when its record set has a
strictly higher source tier, or equal tier and strictly higher aggregate
confidence (section 4.3 tie-break). -/
def beatsB (g : List EvidenceRecord) (v w : String) : Bool :=
  decide (maxTierRank g w < maxTierRank g v) ||
    (maxTierRank g v == maxTierRank g w && decide (aggConfidence g w < aggConfidence g v))

/-- Modelled from the spec: value v wins the tie-break when it beats every
other value stated in the group. -/
def winsTieB (g : List EvidenceRecord) (v : String) : Bool :=
  g.all (fun s => s.claim_text == v || beatsB g v s.claim_text)

/-- Modelled from the spec: some stated value wins the tie-break. -/
def tieResolvedB (g : List EvidenceRecord) : Bool :=
  g.any (fun r => winsTieB g r.claim_text)

/-- Modelled from the spec: the Conflict Detector found a conflict and no
tie-break resolves it, so the Claim becomes conflicting (section 4.3). -/
def conflictUnresolvedB (g : List EvidenceRecord) : Bool :=
  hasConflictB g && !tieResolvedB g

/-- Modelled from the spec: the records of the group agreeing on the value
v, that is, stating the same normalized claim text (section 4.4). -/
def supportersOf (g : List EvidenceRecord) (v : String) : List EvidenceRecord :=
  g.filter (fun r => r.claim_text == v)

/-- Modelled from the spec: two independent records exist in the list,
meaning distinct source and distinct content hash (sections 3 and 4.4);
records with the same content hash count as one independent source.  The
verified rule applies this to the supporters of one value, who agree by
construction. -/
def independentPairB (h : List EvidenceRecord) : Bool :=
  h.any (fun r => h.any (fun s =>
    r.sourceName != s.sourceName && r.contentHash != s.contentHash))

/-- Modelled from the spec: some record of the list has source tier at
least peer-reviewed (rank 2), per section 4.4. -/
def hasPeerB (g : List EvidenceRecord) : Bool :=
  g.any (fun r => decide (2 ≤ r.source_tier.rank))

/-- Modelled from the spec: the records agreeing on the value v contain two
independent members and a member of tier at least peer-reviewed, the
verified condition of section 4.4 for one stated value. -/
def verifiedForValueB (g : List EvidenceRecord) (v : String) : Bool :=
  independentPairB (supportersOf g v) && hasPeerB (supportersOf g v)

/-- Modelled from the spec: at least two independent records agree on some
stated value, with one of the agreeing records of tier at least
peer-reviewed (section 4.4 verified rule). -/
def twoIndependentAgreeB (g : List EvidenceRecord) : Bool :=
  g.any (fun r => verifiedForValueB g r.claim_text)

/-- Modelled from the spec: the per-Claim status derivation of the missing
Verification Aggregator (section 4.4): unverified with no records,
conflicting on an unresolved conflict, verified when two independent
records agree on a value and one of those agreeing records is at least
peer-reviewed, otherwise partially verified with one record of tier at
least peer-reviewed. -/
def claimStatus (g : List EvidenceRecord) : VerificationStatus :=
  if g.isEmpty then .unverified
  else if conflictUnresolvedB g then .conflicting
  else if twoIndependentAgreeB g then .verified
  else if hasPeerB g then .partiallyVerified
  else .unverified

/-- Modelled from the spec: counts of claims by status (section 3),
recomputed from the Claims by the missing Verification Aggregator. -/
structure VerificationSummary where
  verified_count : Nat
  partial_count : Nat
  unverified_count : Nat
  conflicting_count : Nat
  deriving DecidableEq, Repr

/-- Modelled from the spec: the claim ids referenced by an evidence list,
in first occurrence order without duplicates. -/
def claimIds (l : List EvidenceRecord) : List String :=
  (l.map (fun r => r.claim_id)).dedup

/-- Modelled from the spec: the number of Claims of the evidence list whose
derived status is st. -/
def countStatus (l : List EvidenceRecord) (st : VerificationStatus) : Nat :=
  (claimIds l).countP (fun c => claimStatus (groupOf l c) == st)

/-- Modelled from the spec: the VerificationSummary produced by the missing
Verification Aggregator from one evidence list (section 4.4). -/
def verificationSummary (l : List EvidenceRecord) : VerificationSummary :=
  { verified_count := countStatus l .verified
    partial_count := countStatus l .partiallyVerified
    unverified_count := countStatus l .unverified
    conflicting_count := countStatus l .conflicting }

/-- Modelled from the spec: a record is stale when its age exceeds the
freshness SLA of its category (section 4.2). -/
def staleRecord (r : EvidenceRecord) : Bool :=
  decide (r.slaHours < r.freshness_hours)

/-- Modelled from the spec: the inputs of the missing Abstention Policy
Engine (section 4.5): the evidence list, the claim ids flagged as critical
to the answer, the claim ids requiring real-time freshness, and whether
the query is framed as factual or definitive. -/
structure AbstentionInput where
  evidence : List EvidenceRecord
  criticalIds : List String
  realtimeIds : List String
  queryFactual : Bool
  deriving Repr

/-- Modelled from the spec: a critical claim is backed only by low-trust
(tier other) sources, rule 2 of section 4.5. -/
def lowTrustOnly (l : List EvidenceRecord) (c : String) : Bool :=
  !(groupOf l c).isEmpty && (groupOf l c).all (fun r => r.source_tier == .other)

/-- Modelled from the spec: every record backing the claim is stale,
rule 4 of section 4.5. -/
def allStaleFor (l : List EvidenceRecord) (c : String) : Bool :=
  !(groupOf l c).isEmpty && (groupOf l c).all staleRecord

/-- Modelled from the spec: some Claim of the evidence list is conflicting
with no resolvable tie-break, rule 3 of section 4.5. -/
def hasUnresolvedConflict (l : List EvidenceRecord) : Bool :=
  (claimIds l).any (fun c => conflictUnresolvedB (groupOf l c))

/-- Modelled from the spec: the enumerated abstention reason strings of
section 4.5. -/
def abstainReasonStrings : List String :=
  ["no evidence retrieved", "insufficient source trust",
   "conflicting evidence", "evidence stale"]

/-- Modelled from the spec: the missing Abstention Policy Engine
(section 4.5), evaluating the four rules in fixed precedence order and
stopping at the first true rule. -/
def abstainDecision (inp : AbstentionInput) : Bool × Option String :=
  if inp.evidence.isEmpty then (true, some "no evidence retrieved")
  else if inp.criticalIds.any (lowTrustOnly inp.evidence) then
    (true, some "insufficient source trust")
  else if inp.queryFactual && hasUnresolvedConflict inp.evidence then
    (true, some "conflicting evidence")
  else if inp.realtimeIds.any (allStaleFor inp.evidence) then
    (true, some "evidence stale")
  else (false, none)

/-- Modelled from the spec: one row of the Claim table given to the Truth
Gate: a claim id with its derived verification status (section 4.7); the
gate itself lives in the missing orchestrator module. -/
structure GateClaim where
  claim_id : String
  status : VerificationStatus
  deriving DecidableEq, Repr

/-- Modelled from the spec: a generated sentence with the claim ids it
cites, produced by the deterministic citation parse of section 4.7. -/
structure Sentence where
  text : String
  cited : List String
  deriving DecidableEq, Repr

/-- Modelled from the spec: resolve a cited claim id in the Claim table. -/
def lookupClaim (tbl : List GateClaim) (c : String) : Option VerificationStatus :=
  (tbl.find? (fun k => k.claim_id == c)).map (fun k => k.status)

/-- Modelled from the spec: the statuses a cited Claim may have for the
citing sentence to be accepted (section 4.7). -/
def goodStatus : VerificationStatus → Bool
  | .verified => true
  | .partiallyVerified => true
  | _ => false

/-- Modelled from the spec: a citation is in order when the id was included
in the prompt and resolves to a Claim with an accepting status. -/
def citationOk (tbl : List GateClaim) (promptIds : List String) (c : String) : Bool :=
  promptIds.contains c &&
    (match lookupClaim tbl c with
     | some st => goodStatus st
     | none => false)

/-- Modelled from the spec: the Truth Gate accepts a sentence when it cites
at least one claim id and every cited id is in order (section 4.7, the
pending to cited to accepted state machine). -/
def sentenceAccepted (tbl : List GateClaim) (promptIds : List String) (s : Sentence) : Bool :=
  !s.cited.isEmpty && s.cited.all (citationOk tbl promptIds)

/-- Modelled from the spec: accepted sentences of the narrative, in order;
rejected sentences are dropped, not rewritten (section 4.7). -/
def acceptedSentences (tbl : List GateClaim) (promptIds : List String)
    (ns : List Sentence) : List Sentence :=
  ns.filter (sentenceAccepted tbl promptIds)

/-- Modelled from the spec: the claim ids actually cited by the accepted
sentences, the supported_claim_ids of the final summary (section 4.7). -/
def supportedClaimIds (tbl : List GateClaim) (promptIds : List String)
    (ns : List Sentence) : List String :=
  ((acceptedSentences tbl promptIds ns).map (fun s => s.cited)).flatten.dedup

/-- A JSON value, the data the Zod schemas of
server/src/middleware validation module (src/unnamed/part_004) check.
Numbers are rationals; an absent object key models an undefined field. -/
inductive JValue where
  | null
  | bool (b : Bool)
  | num (q : ℚ)
  | str (s : String)
  | arr (xs : List JValue)
  | obj (fields : List (String × JValue))

/-- First binding of a key in a JSON object, none when the key is absent. -/
def getField (fs : List (String × JValue)) (k : String) : Option JValue :=
  (fs.find? (fun p => p.1 == k)).map Prod.snd

/-- Key lookup on a JSON value; none on non-objects. -/
def getKey : JValue → String → Option JValue
  | .obj fs, k => getField fs k
  | _, _ => none

/-- Whether a JSON value is an object carrying the key. -/
def hasKey (v : JValue) (k : String) : Bool :=
  (getKey v k).isSome

/-- Checker for z.string(). -/
def isStr : JValue → Bool
  | .str _ => true
  | _ => false

/-- Checker for z.boolean(). -/
def isBool : JValue → Bool
  | .bool _ => true
  | _ => false

/-- Checker for z.number(). -/
def isNum : JValue → Bool
  | .num _ => true
  | _ => false

/-- Checker for z.number().int(). -/
def isInt : JValue → Bool
  | .num q => q.den == 1
  | _ => false

/-- Checker for z.number().int().min(0). -/
def isIntNonneg : JValue → Bool
  | .num q => q.den == 1 && decide (0 ≤ q)
  | _ => false

/-- Checker for z.number().min(lo). -/
def isNumMin (lo : ℚ) : JValue → Bool
  | .num q => decide (lo ≤ q)
  | _ => false

/-- Checker for z.number().min(lo).max(hi). -/
def isNumBetween (lo hi : ℚ) : JValue → Bool
  | .num q => decide (lo ≤ q) && decide (q ≤ hi)
  | _ => false

/-- Checker for z.enum over string literals. -/
def isEnum (vals : List String) : JValue → Bool
  | .str s => vals.contains s
  | _ => false

/-- Checker for z.array(p). -/
def isArrOf (p : JValue → Bool) : JValue → Bool
  | .arr xs => xs.all p
  | _ => false

/-- Checker for z.record(p), an object whose values all satisfy p. -/
def isRecordOf (p : JValue → Bool) : JValue → Bool
  | .obj fs => fs.all (fun kv => p kv.2)
  | _ => false

/-- Checker for z.record(z.any()), any object. -/
def isAnyObj : JValue → Bool
  | .obj _ => true
  | _ => false

/-- A required object field: present and matching. -/
def reqField (fs : List (String × JValue)) (k : String) (p : JValue → Bool) : Bool :=
  match getField fs k with
  | some v => p v
  | none => false

/-- An optional object field: absent, or present and matching. -/
def optField (fs : List (String × JValue)) (k : String) (p : JValue → Bool) : Bool :=
  match getField fs k with
  | some v => p v
  | none => true

/-- One entry of agents_executed in AnalysisResponseSchema
(src/unnamed/part_004 lines 237 to 241). -/
def isAgentExecuted : JValue → Bool
  | .obj fs =>
    reqField fs "name" isStr &&
    reqField fs "status" (isEnum ["completed", "failed", "skipped"]) &&
    optField fs "duration_ms" isNum
  | _ => false

/-- phase_distribution of ClinicalResponseSchema. -/
def isPhaseDistribution : JValue → Bool
  | .obj fs =>
    reqField fs "phase_1" isIntNonneg &&
    reqField fs "phase_2" isIntNonneg &&
    reqField fs "phase_3" isIntNonneg &&
    reqField fs "phase_4" isIntNonneg
  | _ => false

/-- One adverse_events entry of ClinicalResponseSchema. -/
def isAdverseEvent : JValue → Bool
  | .obj fs =>
    reqField fs "event" isStr &&
    reqField fs "frequency" isStr &&
    reqField fs "severity" isStr
  | _ => false

/-- ClinicalResponseSchema (src/unnamed/part_004 lines 53 to 78). -/
def isClinicalResponse : JValue → Bool
  | .obj fs =>
    reqField fs "molecule" isStr &&
    reqField fs "total_trials_found" isIntNonneg &&
    reqField fs "active_trials" isIntNonneg &&
    optField fs "completed_trials" isIntNonneg &&
    optField fs "phase_distribution" isPhaseDistribution &&
    optField fs "current_indications" (isArrOf isStr) &&
    optField fs "potential_new_indications" (isArrOf isStr) &&
    reqField fs "safety_score" (isNumBetween 0 10) &&
    reqField fs "efficacy_rating" isStr &&
    optField fs "adverse_events" (isArrOf isAdverseEvent) &&
    optField fs "black_box_warning" isBool &&
    optField fs "regulatory_status" (isRecordOf isStr) &&
    reqField fs "agent" isStr &&
    reqField fs "version" isStr &&
    optField fs "processing_time_ms" isNum
  | _ => false

/-- One key_patent_holders entry of PatentResponseSchema. -/
def isPatentHolder : JValue → Bool
  | .obj fs =>
    reqField fs "company" isStr &&
    optField fs "patent_count" isInt &&
    optField fs "key_claims" isStr
  | _ => false

/-- PatentResponseSchema (src/unnamed/part_004 lines 83 to 105). -/
def isPatentResponse : JValue → Bool
  | .obj fs =>
    reqField fs "molecule" isStr &&
    optField fs "total_patents" isIntNonneg &&
    reqField fs "active_patents" isIntNonneg &&
    optField fs "pending_applications" isIntNonneg &&
    reqField fs "earliest_expiration" isStr &&
    optField fs "latest_expiration" isStr &&
    reqField fs "freedom_to_operate" isStr &&
    optField fs "fto_score" (isNumBetween 0 10) &&
    optField fs "blocking_patents" isIntNonneg &&
    optField fs "key_patent_holders" (isArrOf isPatentHolder) &&
    optField fs "licensing_opportunities" isStr &&
    optField fs "geographic_coverage" (isRecordOf isBool) &&
    optField fs "ip_risk_level" isStr &&
    optField fs "strategy_recommendations" (isArrOf isStr) &&
    reqField fs "agent" isStr &&
    reqField fs "version" isStr &&
    optField fs "processing_time_ms" isNum
  | _ => false

/-- MarketResponseSchema (src/unnamed/part_004 lines 110 to 131). -/
def isMarketResponse : JValue → Bool
  | .obj fs =>
    reqField fs "molecule" isStr &&
    reqField fs "projected_revenue_millions" (isNumMin 0) &&
    reqField fs "development_cost_millions" (isNumMin 0) &&
    reqField fs "roi_percentage" isNum &&
    optField fs "net_present_value_millions" isNum &&
    reqField fs "market_size_billions" (fun v => isNum v || isStr v) &&
    optField fs "market_cagr_percent" isNum &&
    optField fs "addressable_market_share_percent" isNum &&
    reqField fs "time_to_market_years" (fun v => isNum v || isStr v) &&
    reqField fs "probability_of_success" isStr &&
    optField fs "risk_level" isStr &&
    reqField fs "competitive_landscape" isStr &&
    optField fs "key_competitors" (isArrOf isStr) &&
    optField fs "patent_cliff_risk" isStr &&
    reqField fs "recommendation" (isEnum ["STRONG_BUY", "BUY", "HOLD", "REVIEW"]) &&
    optField fs "confidence_level" isStr &&
    optField fs "investment_thesis" isStr &&
    reqField fs "agent" isStr &&
    reqField fs "version" isStr &&
    optField fs "processing_time_ms" isNum
  | _ => false

/-- One similar_compounds entry of VisionResponseSchema. -/
def isSimilarCompound : JValue → Bool
  | .obj fs =>
    reqField fs "name" isStr &&
    reqField fs "similarity_score" isNum &&
    optField fs "mechanism" isStr
  | _ => false

/-- properties of VisionResponseSchema. -/
def isVisionProperties : JValue → Bool
  | .obj fs =>
    optField fs "logP" isNum &&
    optField fs "pKa" isNum &&
    optField fs "hbd" isInt &&
    optField fs "hba" isInt &&
    optField fs "rotatable_bonds" isInt &&
    optField fs "tpsa" isNum &&
    optField fs "lipinski_violations" isInt
  | _ => false

/-- visualization of VisionResponseSchema. -/
def isVisualization : JValue → Bool
  | .obj fs =>
    optField fs "3d_model_available" isBool &&
    optField fs "conformers_generated" isInt &&
    optField fs "energy_minimized" isBool
  | _ => false

/-- VisionResponseSchema (src/unnamed/part_004 lines 136 to 170). -/
def isVisionResponse : JValue → Bool
  | .obj fs =>
    reqField fs "molecule" isStr &&
    optField fs "structure_analyzed" isBool &&
    optField fs "molecular_weight" isNum &&
    optField fs "molecular_formula" isStr &&
    optField fs "smiles_notation" isStr &&
    reqField fs "binding_sites_identified" isIntNonneg &&
    optField fs "primary_target" isStr &&
    optField fs "binding_affinity_score" isNum &&
    optField fs "similar_compounds" (isArrOf isSimilarCompound) &&
    optField fs "structural_alerts" (isArrOf isStr) &&
    optField fs "properties" isVisionProperties &&
    optField fs "druglikeness_score" isNum &&
    optField fs "bioavailability_score" isNum &&
    optField fs "visualization" isVisualization &&
    reqField fs "agent" isStr &&
    reqField fs "version" isStr &&
    optField fs "processing_time_ms" isNum
  | _ => false

/-- One inconsistencies entry of ValidationResponseSchema. -/
def isInconsistency : JValue → Bool
  | .obj fs =>
    reqField fs "type" isStr &&
    reqField fs "description" isStr &&
    reqField fs "severity" isStr
  | _ => false

/-- hallucination_check of ValidationResponseSchema. -/
def isHallucinationCheck : JValue → Bool
  | .obj fs =>
    reqField fs "claims_verified" isInt &&
    reqField fs "claims_flagged" isInt &&
    reqField fs "confidence_level" isStr
  | _ => false

/-- ValidationResponseSchema (src/unnamed/part_004 lines 175 to 199). -/
def isValidationResponse : JValue → Bool
  | .obj fs =>
    reqField fs "molecule" isStr &&
    reqField fs "risk_flags" (isArrOf isStr) &&
    reqField fs "risk_count" isIntNonneg &&
    reqField fs "risk_severity" (isEnum ["LOW", "MEDIUM", "HIGH"]) &&
    optField fs "inconsistencies" (isArrOf isInconsistency) &&
    reqField fs "data_quality_score" (isNumBetween 0 1) &&
    optField fs "confidence_scores" (isRecordOf isNum) &&
    reqField fs "overall_confidence" (isEnum ["LOW", "MEDIUM", "HIGH"]) &&
    reqField fs "critical_issues" (isArrOf isStr) &&
    reqField fs "requires_human_review" isBool &&
    reqField fs "validation_recommendations" (isArrOf isStr) &&
    optField fs "hallucination_check" isHallucinationCheck &&
    reqField fs "agent" isStr &&
    reqField fs "version" isStr &&
    optField fs "processing_time_ms" isNum
  | _ => false

/-- One node entry of the graph-shaped nodes union branch. -/
def isGraphNode : JValue → Bool
  | .obj fs =>
    reqField fs "id" isStr &&
    reqField fs "label" isStr &&
    reqField fs "type" isStr &&
    optField fs "color" isStr &&
    optField fs "metadata" isAnyObj
  | _ => false

/-- One edge entry of the graph-shaped edges union branch. -/
def isGraphEdge : JValue → Bool
  | .obj fs =>
    reqField fs "source" isStr &&
    reqField fs "target" isStr &&
    optField fs "type" isStr &&
    optField fs "weight" isNum
  | _ => false

/-- KnowledgeGraphSchema (src/unnamed/part_004 lines 204 to 227). -/
def isKnowledgeGraph : JValue → Bool
  | .obj fs =>
    reqField fs "nodes" (fun v => isIntNonneg v || isArrOf isGraphNode v) &&
    reqField fs "edges" (fun v => isIntNonneg v || isArrOf isGraphEdge v) &&
    optField fs "key_pathways" (isArrOf isStr) &&
    optField fs "node_count" isInt &&
    optField fs "edge_count" isInt
  | _ => false

/-- AnalysisResponseSchema (src/unnamed/part_004 lines 232 to 249): the
acceptance predicate of AnalysisResponseSchema.parse as used by
validateAnalysisResponse.  Unknown keys are stripped, not rejected, by
z.object, so no extra-key check appears. -/
def acceptsAnalysis : JValue → Bool
  | .obj fs =>
    reqField fs "request_id" isStr &&
    reqField fs "molecule" isStr &&
    optField fs "processing_mode" isStr &&
    optField fs "model_used" isStr &&
    reqField fs "agents_executed" (isArrOf isAgentExecuted) &&
    optField fs "clinical" isClinicalResponse &&
    optField fs "patent" isPatentResponse &&
    optField fs "market" isMarketResponse &&
    optField fs "vision" isVisionResponse &&
    optField fs "validation" isValidationResponse &&
    optField fs "knowledge_graph" isKnowledgeGraph &&
    optField fs "processingTimeMs" isNum
  | _ => false

/-- One configuration of RATE_LIMITS
(src/server/src/utils/rateLimiter.js lines 31 to 66). -/
structure RateLimitConfig where
  windowMs : Nat
  maxRequests : Nat
  message : String
  deriving DecidableEq, Repr

/-- RATE_LIMITS lookup with the fallback RATE_LIMITS[limitType] ||
RATE_LIMITS.standard used by createRateLimiter. -/
def rateLimitConfigFor (limitType : String) : RateLimitConfig :=
  if limitType == "standard" then
    ⟨60 * 1000, 60, "Too many requests, please try again later"⟩
  else if limitType == "analysis" then
    ⟨60 * 1000, 10, "Analysis rate limit exceeded. Please wait before submitting another analysis."⟩
  else if limitType == "reports" then
    ⟨60 * 60 * 1000, 20, "Report generation limit reached. Please try again later."⟩
  else if limitType == "health" then
    ⟨60 * 1000, 120, "Rate limit exceeded"⟩
  else if limitType == "watchlist" then
    ⟨60 * 1000, 30, "Watchlist operation limit exceeded"⟩
  else
    ⟨60 * 1000, 60, "Too many requests, please try again later"⟩

/-- One entry of the in-memory rateLimitStore
(src/server/src/utils/rateLimiter.js lines 102 to 114). -/
structure RateLimitEntry where
  windowStart : Nat
  windowMs : Nat
  requests : Nat
  deriving DecidableEq, Repr

/-- The observable outcome of one pass through the middleware returned by
createRateLimiter: whether next() was called, the HTTP status and
Retry-After header of the 429 path, and the rate limit headers. -/
structure RateLimitResponse where
  allowed : Bool
  status : Option Nat
  retryAfter : Option Nat
  limitHeader : Nat
  remainingHeader : Int
  resetHeader : Nat
  deriving DecidableEq, Repr

/-- Math.ceil(a / b) on natural numbers. -/
def ceilDiv (a b : Nat) : Nat :=
  (a + b - 1) / b

/-- One request through the middleware of createRateLimiter
(src/server/src/utils/rateLimiter.js lines 93 to 150): refresh or create
the window entry, increment its request count, store it, emit the
X-RateLimit headers, and either respond 429 with Retry-After or pass to
the next handler.  Timestamps are milliseconds. -/
def rateLimitStep (config : RateLimitConfig) (stored : Option RateLimitEntry)
    (now : Nat) : RateLimitEntry × RateLimitResponse :=
  let base : RateLimitEntry :=
    match stored with
    | some e => if e.windowStart + config.windowMs < now then ⟨now, config.windowMs, 0⟩ else e
    | none => ⟨now, config.windowMs, 0⟩
  let entry : RateLimitEntry := { base with requests := base.requests + 1 }
  let remaining : Int := max 0 ((config.maxRequests : Int) - (entry.requests : Int))
  let resetTime : Nat := entry.windowStart + config.windowMs
  if config.maxRequests < entry.requests then
    (entry,
      { allowed := false
        status := some 429
        retryAfter := some (ceilDiv (resetTime - now) 1000)
        limitHeader := config.maxRequests
        remainingHeader := remaining
        resetHeader := ceilDiv resetTime 1000 })
  else
    (entry,
      { allowed := true
        status := none
        retryAfter := none
        limitHeader := config.maxRequests
        remainingHeader := remaining
        resetHeader := ceilDiv resetTime 1000 })

/-- A stored research report as far as the duplicate check of saveReport
observes it: the unique requestId plus its payload fields
(src/unnamed/part_003 ResearchReportSchema, unique index on requestId). -/
structure StoredReport where
  requestId : String
  molecule : String
  deriving DecidableEq, Repr

/-- ResearchReport.findOne({ requestId }) over the report store
(src/unnamed/part_002 line 41). -/
def findByRequestId (store : List StoredReport) (rid : String) : Option StoredReport :=
  store.find? (fun rep => rep.requestId == rid)

/-- saveReport (src/unnamed/part_002 lines 17 to 101): responds 400 when
express-validator reports errors, 409 without touching the store when a
report with the same requestId already exists, and otherwise creates the
report and responds 201.  The result is the HTTP status and the new store. -/
def saveReport (validationFailed : Bool) (store : List StoredReport)
    (req : StoredReport) : Nat × List StoredReport :=
  if validationFailed then (400, store)
  else
    match findByRequestId store req.requestId with
    | some _ => (409, store)
    | none => (201, store ++ [req])

/-- One sharedWith entry of ResearchReportSchema
(src/unnamed/part_003 lines 179 to 185). -/
structure ShareEntry where
  userId : String
  permission : String
  deriving DecidableEq, Repr

/-- The sharing state of one research report. -/
structure Report where
  sharedWith : List ShareEntry
  isShared : Bool
  deriving DecidableEq, Repr

/-- shareReport (src/unnamed/part_002 lines 552 to 612): responds 400 and
leaves the report unchanged when the target user already appears in
sharedWith, otherwise pushes one entry, sets isShared to true and responds
200.  The result is the HTTP status and the saved report. -/
def shareReport (rep : Report) (targetUserId : String) (permission : String) :
    Nat × Report :=
  if rep.sharedWith.any (fun sh => sh.userId == targetUserId) then
    (400, rep)
  else
    (200, { rep with
             sharedWith := rep.sharedWith ++ [⟨targetUserId, permission⟩]
             isShared := true })

/-- unshareReport (src/unnamed/part_002 lines 617 to 652): removes every
sharedWith entry of the given userId, sets isShared to whether the
remaining list is non-empty, and responds 200. -/
def unshareReport (rep : Report) (userId : String) : Nat × Report :=
  let remaining := rep.sharedWith.filter (fun sh => sh.userId != userId)
  (200, { rep with
           sharedWith := remaining
           isShared := decide (0 < remaining.length) })

/-- C4: for evidence records identical except for freshness_hours, with both
ages past the category SLA boundary, the larger age never receives a
strictly larger confidence; and for records identical except for source
tier, the higher tier rank never receives a strictly smaller confidence. -/
theorem scorer_confidence_monotone :
    (∀ (t : SourceTier) (sla a1 a2 : Nat), sla < a1 → a1 ≤ a2 →
      confidenceScore t a2 sla ≤ confidenceScore t a1 sla) ∧
    (∀ (t1 t2 : SourceTier) (a sla : Nat), t1.rank ≤ t2.rank →
      confidenceScore t1 a sla ≤ confidenceScore t2 a sla) := by
  constructor
  · intro t sla a1 a2 h1 h12
    exact mul_le_mul_of_nonneg_left (freshFactor_antitone h1 h12) (baseConfidence_nonneg t)
  · intro t1 t2 a sla h
    exact mul_le_mul_of_nonneg_right (baseConfidence_mono h) (freshFactor_nonneg a sla)

theorem scorer_confidence_monotone_witness :
    confidenceScore SourceTier.official 200 24 ≤ confidenceScore SourceTier.official 30 24 ∧
    confidenceScore SourceTier.news 30 24 ≤ confidenceScore SourceTier.official 30 24 :=
  ⟨scorer_confidence_monotone.1 .official 24 30 200 (by decide) (by decide),
   scorer_confidence_monotone.2 .news .official 30 24 (by decide)⟩

/-- C2: an empty evidence input makes the Abstention Policy Engine abstain
with reason exactly "no evidence retrieved" regardless of the other
inputs (rule 1 fires first in the fixed precedence order), and the chosen
reason is always drawn from the enumerated reason set, never free text;
a reason is present exactly when the result abstains. -/
theorem abstention_empty_evidence (inp : AbstentionInput) :
    (inp.evidence = [] → abstainDecision inp = (true, some "no evidence retrieved")) ∧
    ((abstainDecision inp).2 = none ∨
      ∃ r ∈ abstainReasonStrings, (abstainDecision inp).2 = some r) ∧
    ((abstainDecision inp).2 = none ↔ (abstainDecision inp).1 = false) := by
  refine ⟨fun he => by simp [abstainDecision, he], ?_, ?_⟩
  · unfold abstainDecision
    split_ifs <;> simp [abstainReasonStrings]
  · unfold abstainDecision
    split_ifs <;> simp

theorem abstention_empty_evidence_witness :
    abstainDecision ⟨[], ["c1"], ["c2"], true⟩ = (true, some "no evidence retrieved") :=
  (abstention_empty_evidence ⟨[], ["c1"], ["c2"], true⟩).1 rfl

/-- C6: the Truth Gate is idempotent: the accepted-sentence set computed
from the accepted sentences of a run equals that of the run itself, and
being a pure function of the (narrative, Claims, prompt) inputs it yields
the same accepted-sentence set every time it runs on the same pair. -/
theorem truth_gate_idempotent (tbl : List GateClaim) (promptIds : List String)
    (ns : List Sentence) :
    acceptedSentences tbl promptIds (acceptedSentences tbl promptIds ns) =
      acceptedSentences tbl promptIds ns := by
  unfold acceptedSentences
  rw [List.filter_filter]
  simp

/-- C9: a saveReport request that passes validation but carries the
requestId of an already stored report responds 409 and leaves the report
store unchanged: nothing is created and nothing is modified. -/
theorem saveReport_duplicate_atomic (store : List StoredReport) (req : StoredReport)
    (h : (findByRequestId store req.requestId).isSome = true) :
    saveReport false store req = (409, store) := by
  obtain ⟨r, hr⟩ := Option.isSome_iff_exists.mp h
  simp [saveReport, hr]

theorem saveReport_duplicate_atomic_witness :
    saveReport false [⟨"req-1", "aspirin"⟩] ⟨"req-1", "ibuprofen"⟩ =
      (409, [⟨"req-1", "aspirin"⟩]) :=
  saveReport_duplicate_atomic [⟨"req-1", "aspirin"⟩] ⟨"req-1", "ibuprofen"⟩ (by decide)

/-- C10: after a successful shareReport the entry was appended, isShared is
true and the list is non-empty; after unshareReport exactly the entries of
the given userId are removed and isShared equals whether the remaining
list is non-empty, in particular it is false when the list became empty. -/
theorem sharing_isShared_invariant (rep : Report) (uid perm rmUid : String) :
    ((shareReport rep uid perm).1 = 200 →
      ((shareReport rep uid perm).2.sharedWith = rep.sharedWith ++ [⟨uid, perm⟩] ∧
       (shareReport rep uid perm).2.isShared = true ∧
       ((shareReport rep uid perm).2.isShared = true ↔
         (shareReport rep uid perm).2.sharedWith ≠ []))) ∧
    ((unshareReport rep rmUid).2.sharedWith =
        rep.sharedWith.filter (fun sh => sh.userId != rmUid) ∧
     ((unshareReport rep rmUid).2.isShared = true ↔
       (unshareReport rep rmUid).2.sharedWith ≠ []) ∧
     ((unshareReport rep rmUid).2.sharedWith = [] →
       (unshareReport rep rmUid).2.isShared = false)) := by
  constructor
  · unfold shareReport
    split_ifs with h
    · intro h200; simp at h200
    · intro _
      refine ⟨rfl, rfl, ?_⟩
      simp
  · unfold unshareReport
    refine ⟨rfl, ?_, ?_⟩
    · simp [List.length_pos]
    · intro hnil
      have hnil2 : rep.sharedWith.filter (fun sh => sh.userId != rmUid) = [] := hnil
      simp [hnil2]

theorem sharing_isShared_invariant_witness :
    (shareReport ⟨[], false⟩ "u1" "view").2.isShared = true ∧
    (unshareReport ⟨[⟨"u1", "view"⟩], true⟩ "u1").2.isShared = false :=
  ⟨((sharing_isShared_invariant ⟨[], false⟩ "u1" "view" "x").1 rfl).2.1,
   ((sharing_isShared_invariant ⟨[⟨"u1", "view"⟩], true⟩ "z" "view" "u1").2.2.2 (by decide))⟩

/-- C8: the middleware of createRateLimiter passes the request to the next
handler exactly when the incremented request count of the current window
is at most the configured maxRequests; otherwise it responds 429 with a
Retry-After header; and the X-RateLimit-Remaining header is never
negative. -/
theorem rate_limiter_step_spec (config : RateLimitConfig)
    (stored : Option RateLimitEntry) (now : Nat) :
    ((rateLimitStep config stored now).2.allowed = true ↔
      (rateLimitStep config stored now).1.requests ≤ config.maxRequests) ∧
    ((rateLimitStep config stored now).2.allowed = false →
      (rateLimitStep config stored now).2.status = some 429 ∧
      ((rateLimitStep config stored now).2.retryAfter).isSome = true) ∧
    0 ≤ (rateLimitStep config stored now).2.remainingHeader := by
  unfold rateLimitStep
  dsimp only
  split_ifs with h <;> simp_all

theorem rate_limiter_step_spec_witness :
    (rateLimitStep ⟨60000, 1, "m"⟩ (some ⟨0, 60000, 5⟩) 100).2.status = some 429 ∧
    0 ≤ (rateLimitStep ⟨60000, 1, "m"⟩ (some ⟨0, 60000, 5⟩) 100).2.remainingHeader :=
  ⟨((rate_limiter_step_spec ⟨60000, 1, "m"⟩ (some ⟨0, 60000, 5⟩) 100).2.1 (by decide)).1,
   (rate_limiter_step_spec ⟨60000, 1, "m"⟩ (some ⟨0, 60000, 5⟩) 100).2.2⟩

/-- C1: every claim id among supported_claim_ids of a final summary was in
the prompt and resolves to a Claim whose status is verified or partially
verified (so never unverified or conflicting); a sentence is accepted only
if every cited id is in order; and a sentence appears in the output
exactly when it appeared in the narrative and was accepted, so rejected
sentences are dropped. -/
theorem truth_gate_no_unsupported (tbl : List GateClaim) (promptIds : List String)
    (ns : List Sentence) :
    (∀ c ∈ supportedClaimIds tbl promptIds ns,
      c ∈ promptIds ∧ ∃ st, lookupClaim tbl c = some st ∧
        (st = VerificationStatus.verified ∨ st = VerificationStatus.partiallyVerified)) ∧
    (∀ s ∈ acceptedSentences tbl promptIds ns,
      ∀ c ∈ s.cited, citationOk tbl promptIds c = true) ∧
    (∀ s, s ∈ acceptedSentences tbl promptIds ns ↔
      s ∈ ns ∧ sentenceAccepted tbl promptIds s = true) := by
  have hacc : ∀ s ∈ acceptedSentences tbl promptIds ns,
      ∀ c ∈ s.cited, citationOk tbl promptIds c = true := by
    intro s hs c hc
    have hsa : sentenceAccepted tbl promptIds s = true :=
      (List.mem_filter.mp hs).2
    rw [sentenceAccepted, Bool.and_eq_true] at hsa
    exact (List.all_eq_true.mp hsa.2) c hc
  refine ⟨?_, hacc, fun s => List.mem_filter⟩
  intro c hc
  rw [supportedClaimIds, List.mem_dedup, List.mem_flatten] at hc
  obtain ⟨l, hl, hcl⟩ := hc
  obtain ⟨s, hs, rfl⟩ := List.mem_map.mp hl
  have hok := hacc s hs c hcl
  rw [citationOk, Bool.and_eq_true] at hok
  have hmem : c ∈ promptIds := by
    have h1 := hok.1
    rw [List.contains_iff_exists_mem_beq] at h1
    obtain ⟨a, ha, hbeq⟩ := h1
    exact (eq_of_beq hbeq) ▸ ha
  refine ⟨hmem, ?_⟩
  cases hlook : lookupClaim tbl c with
  | none => rw [hlook] at hok; simp at hok
  | some st =>
    refine ⟨st, rfl, ?_⟩
    rw [hlook] at hok
    cases st <;> simp [goodStatus] at hok <;> simp

theorem truth_gate_no_unsupported_witness :
    "c1" ∈ ["c1"] ∧ ∃ st,
      lookupClaim [⟨"c1", .verified⟩, ⟨"c2", .unverified⟩] "c1" = some st ∧
      (st = VerificationStatus.verified ∨ st = VerificationStatus.partiallyVerified) :=
  (truth_gate_no_unsupported [⟨"c1", .verified⟩, ⟨"c2", .unverified⟩] ["c1"]
    [⟨"s1", ["c1"]⟩, ⟨"s2", ["c2"]⟩]).1 "c1" (by decide)

/-- A concrete top-level analysis response: well-formed request_id,
molecule and agents_executed, but no results map and no summary object. -/
def respNoSummary : JValue :=
  .obj [("request_id", .str "req-1"), ("molecule", .str "aspirin"),
        ("agents_executed", .arr [])]

/-- C7 counterexample: AnalysisResponseSchema accepts a response that has
neither a results map of AgentResult-shaped objects nor a summary object,
so an accepted top-level response need not contain them. -/
theorem analysis_schema_counterexample :
    acceptsAnalysis respNoSummary = true ∧
    hasKey respNoSummary "results" = false ∧
    hasKey respNoSummary "summary" = false := by
  refine ⟨by decide, by decide, by decide⟩

theorem reqField_isStr {fs : List (String × JValue)} {k : String}
    (h : reqField fs k isStr = true) : ∃ s, getField fs k = some (JValue.str s) := by
  unfold reqField at h
  cases hf : getField fs k with
  | none => rw [hf] at h; simp at h
  | some w =>
    rw [hf] at h
    cases w <;> simp [isStr] at h
    case str s => exact ⟨s, rfl⟩

theorem reqField_isArrOf {fs : List (String × JValue)} {k : String} {p : JValue → Bool}
    (h : reqField fs k (isArrOf p) = true) :
    ∃ xs, getField fs k = some (JValue.arr xs) ∧ ∀ a ∈ xs, p a = true := by
  unfold reqField at h
  cases hf : getField fs k with
  | none => rw [hf] at h; simp at h
  | some w =>
    rw [hf] at h
    cases w <;> simp [isArrOf] at h
    case arr xs => exact ⟨xs, rfl, h⟩

/-- C7 amended: every top-level response accepted by the analysis response
validator (AnalysisResponseSchema) contains a string request_id, a string
molecule, and an agents_executed array of entries each carrying a name
and a status among completed, failed, skipped; per-agent results are
optional top-level fields (clinical, patent, market, vision, validation),
not a results map, and no summary object is required. -/
theorem analysis_schema_required_fields (v : JValue) (h : acceptsAnalysis v = true) :
    (∃ s, getKey v "request_id" = some (JValue.str s)) ∧
    (∃ s, getKey v "molecule" = some (JValue.str s)) ∧
    (∃ xs, getKey v "agents_executed" = some (JValue.arr xs) ∧
      ∀ a ∈ xs, isAgentExecuted a = true) := by
  cases v with
  | obj fs =>
    simp only [acceptsAnalysis, Bool.and_eq_true] at h
    obtain ⟨⟨⟨⟨⟨⟨⟨⟨⟨⟨⟨hreq, hmol⟩, hpm⟩, hmu⟩, hag⟩, hcl⟩, hpa⟩, hma⟩, hvi⟩, hva⟩, hkg⟩, hpt⟩ := h
    exact ⟨reqField_isStr hreq, reqField_isStr hmol, reqField_isArrOf hag⟩
  | null => simp [acceptsAnalysis] at h
  | bool b => simp [acceptsAnalysis] at h
  | num q => simp [acceptsAnalysis] at h
  | str s => simp [acceptsAnalysis] at h
  | arr xs => simp [acceptsAnalysis] at h

theorem analysis_schema_required_fields_witness :
    ∃ s, getKey respNoSummary "request_id" = some (JValue.str s) :=
  (analysis_schema_required_fields respNoSummary (by decide)).1

/-- C3: when the records of a Claim group agree on the claim text, the
Verification Aggregator derives status verified exactly when the group has
two independent records, meaning distinct source and distinct content
hash (so two records with identical content hash count as one independent
source, not two), and at least one record of source tier peer-reviewed or
higher. -/
theorem aggregator_verified_iff (g : List EvidenceRecord)
    (hagree : ∀ r ∈ g, ∀ s ∈ g, r.claim_text = s.claim_text) :
    claimStatus g = VerificationStatus.verified ↔
      ((∃ r ∈ g, ∃ s ∈ g, r.sourceName ≠ s.sourceName ∧ r.contentHash ≠ s.contentHash) ∧
       ∃ r ∈ g, 2 ≤ r.source_tier.rank) := by
  have hconf : ¬ hasConflictB g = true := by
    intro hc
    simp only [hasConflictB, List.any_eq_true, bne_iff_ne] at hc
    obtain ⟨r, hr, s, hs, hne⟩ := hc
    exact hne (hagree r hr s hs)
  have hcu : ¬ conflictUnresolvedB g = true := by
    rw [conflictUnresolvedB, Bool.and_eq_true]
    rintro ⟨h1, _⟩
    exact hconf h1
  have hsup : ∀ r ∈ g, supportersOf g r.claim_text = g := by
    intro r hr
    unfold supportersOf
    refine List.filter_eq_self.mpr ?_
    intro s hs
    exact beq_iff_eq.mpr (hagree s hs r hr)
  have h2iff : independentPairB g = true ↔
      (∃ r ∈ g, ∃ s ∈ g, r.sourceName ≠ s.sourceName ∧ r.contentHash ≠ s.contentHash) := by
    simp [independentPairB, List.any_eq_true, bne_iff_ne]
  have hpiff : hasPeerB g = true ↔ (∃ r ∈ g, 2 ≤ r.source_tier.rank) := by
    simp [hasPeerB, List.any_eq_true]
  have hta : twoIndependentAgreeB g = true ↔
      (independentPairB g = true ∧ hasPeerB g = true) := by
    unfold twoIndependentAgreeB verifiedForValueB
    rw [List.any_eq_true]
    constructor
    · rintro ⟨r, hr, hv⟩
      rw [hsup r hr, Bool.and_eq_true] at hv
      exact hv
    · rintro ⟨hip, hp⟩
      obtain ⟨r, hr, -⟩ := h2iff.mp hip
      exact ⟨r, hr, by rw [hsup r hr, Bool.and_eq_true]; exact ⟨hip, hp⟩⟩
  unfold claimStatus
  rw [if_neg hcu]
  constructor
  · intro h
    by_cases hemp : g.isEmpty = true
    · rw [if_pos hemp] at h
      exact absurd h (by simp)
    · rw [if_neg hemp] at h
      by_cases h2 : twoIndependentAgreeB g = true
      · obtain ⟨hip, hp⟩ := hta.mp h2
        exact ⟨h2iff.mp hip, hpiff.mp hp⟩
      · rw [if_neg h2] at h
        by_cases hp : hasPeerB g = true
        · rw [if_pos hp] at h; exact absurd h (by simp)
        · rw [if_neg hp] at h; exact absurd h (by simp)
  · rintro ⟨hind, hpeer⟩
    have hne : ¬ g.isEmpty = true := by
      obtain ⟨r, hr, -⟩ := hind
      cases g with
      | nil => simp at hr
      | cons a l => simp
    rw [if_neg hne, if_pos (hta.mpr ⟨h2iff.mpr hind, hpiff.mpr hpeer⟩)]

theorem aggregator_verified_iff_witness :
    claimStatus
      [⟨"c1", "fact", "FDA", "h1", .official, 9/10, 1, 24⟩,
       ⟨"c1", "fact", "PubMed", "h2", .peerReviewed, 3/4, 1, 24⟩] =
      VerificationStatus.verified :=
  (aggregator_verified_iff
    [⟨"c1", "fact", "FDA", "h1", .official, 9/10, 1, 24⟩,
     ⟨"c1", "fact", "PubMed", "h2", .peerReviewed, 3/4, 1, 24⟩]
    (by decide)).mpr (by decide)

theorem any_perm {α : Type} {l1 l2 : List α} (h : List.Perm l1 l2) (p : α → Bool) :
    l1.any p = l2.any p := by
  rw [List.any_eq, List.any_eq]
  refine decide_eq_decide.mpr ?_
  constructor
  · rintro ⟨x, hx, hp⟩; exact ⟨x, h.mem_iff.mp hx, hp⟩
  · rintro ⟨x, hx, hp⟩; exact ⟨x, h.mem_iff.mpr hx, hp⟩

theorem all_perm {α : Type} {l1 l2 : List α} (h : List.Perm l1 l2) (p : α → Bool) :
    l1.all p = l2.all p := by
  rw [List.all_eq, List.all_eq]
  refine decide_eq_decide.mpr ?_
  constructor
  · intro hall x hx; exact hall x (h.mem_iff.mpr hx)
  · intro hall x hx; exact hall x (h.mem_iff.mp hx)

theorem any_congr_pt {α : Type} {l : List α} {p q : α → Bool}
    (h : ∀ a ∈ l, p a = q a) : l.any p = l.any q := by
  rw [List.any_eq, List.any_eq]
  refine decide_eq_decide.mpr ?_
  constructor
  · rintro ⟨a, ha, hp⟩; exact ⟨a, ha, (h a ha) ▸ hp⟩
  · rintro ⟨a, ha, hq⟩; exact ⟨a, ha, (h a ha).symm ▸ hq⟩

theorem all_congr_pt {α : Type} {l : List α} {p q : α → Bool}
    (h : ∀ a ∈ l, p a = q a) : l.all p = l.all q := by
  rw [List.all_eq, List.all_eq]
  refine decide_eq_decide.mpr ?_
  constructor
  · intro hall a ha; rw [← h a ha]; exact hall a ha
  · intro hall a ha; rw [h a ha]; exact hall a ha

theorem groupOf_perm {l1 l2 : List EvidenceRecord} (h : List.Perm l1 l2) (c : String) :
    List.Perm (groupOf l1 c) (groupOf l2 c) :=
  h.filter _

theorem maxTierRank_perm {g1 g2 : List EvidenceRecord} (h : List.Perm g1 g2) (v : String) :
    maxTierRank g1 v = maxTierRank g2 v := by
  unfold maxTierRank
  exact List.Perm.foldr_eq' ((h.filter _).map _)
    (fun x _ y _ z => Nat.max_left_comm y x z) 0

theorem aggConfidence_perm {g1 g2 : List EvidenceRecord} (h : List.Perm g1 g2) (v : String) :
    aggConfidence g1 v = aggConfidence g2 v := by
  unfold aggConfidence
  exact List.Perm.sum_eq ((h.filter _).map _)

theorem beatsB_perm {g1 g2 : List EvidenceRecord} (h : List.Perm g1 g2) (v w : String) :
    beatsB g1 v w = beatsB g2 v w := by
  unfold beatsB
  rw [maxTierRank_perm h v, maxTierRank_perm h w,
    aggConfidence_perm h v, aggConfidence_perm h w]

theorem winsTieB_perm {g1 g2 : List EvidenceRecord} (h : List.Perm g1 g2) (v : String) :
    winsTieB g1 v = winsTieB g2 v := by
  unfold winsTieB
  rw [all_perm h]
  exact all_congr_pt (fun s _ => by rw [beatsB_perm h])

theorem tieResolvedB_perm {g1 g2 : List EvidenceRecord} (h : List.Perm g1 g2) :
    tieResolvedB g1 = tieResolvedB g2 := by
  unfold tieResolvedB
  rw [any_perm h]
  exact any_congr_pt (fun r _ => winsTieB_perm h r.claim_text)

theorem hasConflictB_perm {g1 g2 : List EvidenceRecord} (h : List.Perm g1 g2) :
    hasConflictB g1 = hasConflictB g2 := by
  unfold hasConflictB
  rw [any_perm h]
  exact any_congr_pt (fun r _ => any_perm h _)

theorem conflictUnresolvedB_perm {g1 g2 : List EvidenceRecord} (h : List.Perm g1 g2) :
    conflictUnresolvedB g1 = conflictUnresolvedB g2 := by
  unfold conflictUnresolvedB
  rw [hasConflictB_perm h, tieResolvedB_perm h]

theorem supportersOf_perm {g1 g2 : List EvidenceRecord} (h : List.Perm g1 g2)
    (v : String) : List.Perm (supportersOf g1 v) (supportersOf g2 v) :=
  h.filter _

theorem independentPairB_perm {l1 l2 : List EvidenceRecord} (h : List.Perm l1 l2) :
    independentPairB l1 = independentPairB l2 := by
  unfold independentPairB
  rw [any_perm h]
  exact any_congr_pt (fun r _ => any_perm h _)

theorem hasPeerB_perm {g1 g2 : List EvidenceRecord} (h : List.Perm g1 g2) :
    hasPeerB g1 = hasPeerB g2 :=
  any_perm h _

theorem twoIndependentAgreeB_perm {g1 g2 : List EvidenceRecord} (h : List.Perm g1 g2) :
    twoIndependentAgreeB g1 = twoIndependentAgreeB g2 := by
  unfold twoIndependentAgreeB
  rw [any_perm h]
  refine any_congr_pt (fun r _ => ?_)
  unfold verifiedForValueB
  rw [independentPairB_perm (supportersOf_perm h r.claim_text),
    hasPeerB_perm (supportersOf_perm h r.claim_text)]

theorem isEmpty_perm {α : Type} {l1 l2 : List α} (h : List.Perm l1 l2) :
    l1.isEmpty = l2.isEmpty := by
  have hl := h.length_eq
  cases l1 <;> cases l2 <;> simp_all

theorem claimStatus_perm {g1 g2 : List EvidenceRecord} (h : List.Perm g1 g2) :
    claimStatus g1 = claimStatus g2 := by
  unfold claimStatus
  rw [isEmpty_perm h, conflictUnresolvedB_perm h, twoIndependentAgreeB_perm h, hasPeerB_perm h]

/-- C5: the Verification Aggregator is order-independent: permuting the
input evidence list leaves the VerificationSummary, hence each of
verified_count, partial_count, unverified_count and conflicting_count,
unchanged. -/
theorem verification_summary_perm_invariant (l1 l2 : List EvidenceRecord)
    (h : List.Perm l1 l2) : verificationSummary l1 = verificationSummary l2 := by
  have hcnt : ∀ st, countStatus l1 st = countStatus l2 st := by
    intro st
    unfold countStatus claimIds
    exact List.Perm.countP_congr ((h.map _).dedup)
      (fun c _ => by rw [claimStatus_perm (groupOf_perm h c)])
  unfold verificationSummary
  rw [hcnt, hcnt, hcnt, hcnt]

theorem verification_summary_perm_invariant_witness :
    verificationSummary
      [⟨"c1", "fact", "FDA", "h1", .official, 9/10, 1, 24⟩,
       ⟨"c2", "fact2", "PubMed", "h2", .peerReviewed, 3/4, 1, 24⟩] =
    verificationSummary
      [⟨"c2", "fact2", "PubMed", "h2", .peerReviewed, 3/4, 1, 24⟩,
       ⟨"c1", "fact", "FDA", "h1", .official, 9/10, 1, 24⟩] :=
  verification_summary_perm_invariant _ _
    (List.Perm.swap
      (⟨"c2", "fact2", "PubMed", "h2", .peerReviewed, 3/4, 1, 24⟩ : EvidenceRecord)
      (⟨"c1", "fact", "FDA", "h1", .official, 9/10, 1, 24⟩ : EvidenceRecord) [])

end SentinelPharma
